import Mathlib

/-!
Verification of the guardrail and audit core of the akash-autopilot agent.

The Python source (src/agent/policy.py, src/agent/loop.py, src/database/db.py,
src/config.py) is shallowly embedded:

* Python values reaching the validators are modelled by `PVal` (ints, strings,
  booleans, None, lists, dicts with string keys as association lists).
* Timestamps are integers (seconds); the source stores ISO-8601 strings of
  `datetime.utcnow()` whose lexicographic order agrees with chronological
  order, so integer comparison is a faithful abstraction.
* Operations that can raise a Python exception (TypeError on an order
  comparison of a string with an int, KeyError, iterating a non-list) return
  `Except`, with `Except.error` marking the raise.
* The SQLite tables behind `AutopilotDB` are modelled as in-memory lists; each
  SQL statement of db.py is transcribed as a pure function on that state.
-/

namespace Autopilot

/-- A Python value as it appears in the action-plan documents and detail
dicts handled by policy.py and loop.py. -/
inductive PVal where
  | vInt  : Int → PVal
  | vStr  : String → PVal
  | vBool : Bool → PVal
  | vNone : PVal
  | vList : List PVal → PVal
  | vDict : List (String × PVal) → PVal

/-- Python `d[k]` / `k in d` lookup on a string-keyed dict (first binding wins,
as a Python dict has unique keys). -/
def dictGet (d : List (String × PVal)) (k : String) : Option PVal :=
  match d with
  | [] => none
  | (k', v) :: rest => if k' = k then some v else dictGet rest k

/-- Python `k in d`. -/
def hasKey (d : List (String × PVal)) (k : String) : Bool :=
  (dictGet d k).isSome

/-- Python `str(v)` for the values that reach an error-message f-string. -/
def pvalToStr : PVal → String
  | PVal.vInt n => toString n
  | PVal.vStr s => s
  | PVal.vBool b => if b then "True" else "False"
  | PVal.vNone => "None"
  | PVal.vList _ => "[...]"
  | PVal.vDict _ => "\x7b...\x7d"

/-- Python `v == lit` for a string literal lit: true exactly for the equal
string, false for every non-string value. -/
def pyEqStr (v : PVal) (lit : String) : Bool :=
  match v with
  | PVal.vStr s => s == lit
  | _ => false

/-- Python `v is None`. -/
def pyIsNone : PVal → Bool
  | PVal.vNone => true
  | _ => false

/-- Whether a Python value is hashable: lists and dicts are not, and hashing
one (as a set-membership test does) raises TypeError. -/
def pyHashable : PVal → Bool
  | PVal.vList _ => false
  | PVal.vDict _ => false
  | _ => true

/-- Python `v in ActionValidator.VALID_ACTION_TYPES` — membership in the SET
`\x7b"scale", "redeploy", "no_action"\x7d`. The test hashes v first, raising
TypeError for an unhashable list or dict (modelled by `Except.error`); any
other non-string value is simply not a member. -/
def typeValid (v : PVal) : Except String Bool :=
  if pyHashable v = false then Except.error "TypeError"
  else Except.ok (pyEqStr v "scale" || pyEqStr v "redeploy" || pyEqStr v "no_action")

/-- The `for i, action in enumerate(actions)` loop of
ActionValidator.validate_action_plan (policy.py lines 161-185), carrying the
enumeration index. `Except.error` marks the TypeError the set-membership test
raises on an unhashable type value. -/
def validateActs : Nat → List PVal → Except String (Bool × Option String)
  | _, [] => Except.ok (true, none)
  | i, PVal.vDict d :: rest =>
    match dictGet d "type" with
    | none => Except.ok (false, some ("Action " ++ toString i ++ " missing 'type' field"))
    | some tv => do
      let isMember ← typeValid tv
      if isMember = false then
        Except.ok (false, some ("Invalid action type: '" ++ pvalToStr tv ++
          "'. Must be one of \x7bscale, redeploy, no_action\x7d"))
      else if pyEqStr tv "scale" then
        if hasKey d "deployment_id" = false then
          Except.ok (false, some ("Scale action " ++ toString i ++ " missing 'deployment_id'"))
        else if hasKey d "new_count" = false then
          Except.ok (false, some ("Scale action " ++ toString i ++ " missing 'new_count'"))
        else validateActs (i + 1) rest
      else if pyEqStr tv "redeploy" then
        if hasKey d "deployment_id" = false then
          Except.ok (false, some ("Redeploy action " ++ toString i ++ " missing 'deployment_id'"))
        else validateActs (i + 1) rest
      else validateActs (i + 1) rest
  | i, _ :: _ => Except.ok (false, some ("Action " ++ toString i ++ " must be a dictionary"))

/-- ActionValidator.validate_action_plan (policy.py lines 143-186): structural
validation of the untrusted plan document. `Except.error` marks an uncaught
TypeError from the per-element type membership test. -/
def validate_action_plan : PVal → Except String (Bool × Option String)
  | PVal.vDict p =>
    match dictGet p "actions" with
    | none => Except.ok (false, some "Action plan must contain 'actions' key")
    | some (PVal.vList acts) => validateActs 0 acts
    | some _ => Except.ok (false, some "'actions' must be a list")
  | _ => Except.ok (false, some "Action plan must be a dictionary")

/-- A sanitized action as built by ActionValidator.sanitize_action_plan: the
dict holding type, deployment_id and details. -/
structure SAction where
  typ : PVal
  deployment_id : PVal
  details : List (String × PVal)

/-- The `for action in actions` loop of ActionValidator.sanitize_action_plan
(policy.py lines 194-212). `Except.error` marks a Python exception (KeyError
on a missing "type" key, an attribute error on a non-dict element), which
cannot happen once the plan has been validated. -/
def sanitizeActs : List PVal → Except Unit (List SAction)
  | [] => Except.ok []
  | PVal.vDict d :: rest =>
    if pyEqStr ((dictGet d "type").getD PVal.vNone) "no_action" then
      sanitizeActs rest
    else
      match dictGet d "type" with
      | none => Except.error ()
      | some tv => do
        let det : List (String × PVal) :=
          if pyEqStr tv "scale" then
            [("new_count", (dictGet d "new_count").getD PVal.vNone),
             ("reason", (dictGet d "reason").getD (PVal.vStr "LLM recommendation"))]
          else if pyEqStr tv "redeploy" then
            [("reason", (dictGet d "reason").getD (PVal.vStr "LLM recommendation"))]
          else []
        let tl ← sanitizeActs rest
        Except.ok ({ typ := tv,
                     deployment_id := (dictGet d "deployment_id").getD PVal.vNone,
                     details := det } :: tl)
  | _ :: _ => Except.error ()

/-- ActionValidator.sanitize_action_plan (policy.py lines 188-214), on the
entries of the plan dict. `action_plan.get("actions", [])` is iterated: a
missing key, an empty string and an empty dict iterate zero times and yield
[]; iterating a non-empty string or dict yields strings whose `.get` raises
AttributeError, and a non-iterable value raises TypeError (both modelled by
`Except.error`). -/
def sanitize_action_plan (p : List (String × PVal)) : Except Unit (List SAction) :=
  match dictGet p "actions" with
  | none => Except.ok []
  | some (PVal.vList acts) => sanitizeActs acts
  | some (PVal.vStr s) => if s = "" then Except.ok [] else Except.error ()
  | some (PVal.vDict []) => Except.ok []
  | some (PVal.vDict (_ :: _)) => Except.error ()
  | some _ => Except.error ()

/-- The guardrail-relevant fields of config.py's Settings, with their default
values (config.py lines 30-33). -/
structure Settings where
  max_actions_per_hour : Int := 10
  max_actions_per_day : Int := 50
  scale_cooldown_seconds : Int := 3600
  redeploy_cooldown_seconds : Int := 7200

/-- A row of the action_ledger table (db.py lines 59-68). -/
structure ActionRecord where
  id : Nat
  timestamp : Int
  action_type : String
  deployment_id : Option String
  details : Option (List (String × PVal))
  status : String
  error : Option String

/-- A row of the cooldowns table (db.py lines 71-77). -/
structure CooldownRow where
  action_type : String
  deployment_id : Option String
  expires_at : Int
deriving DecidableEq

/-- The database state behind AutopilotDB: the two tables the guardrail core
writes, plus the AUTOINCREMENT counter of action_ledger. -/
structure DB where
  ledger : List ActionRecord
  cooldowns : List CooldownRow
  nextId : Nat

/-- The details column value written by log_action: Python
`json.dumps(details) if details else None` stores NULL for a falsy details
value (None or an empty dict). -/
def detailsStored : Option (List (String × PVal)) → Option (List (String × PVal))
  | none => none
  | some [] => none
  | some l => some l

/-- AutopilotDB.log_action (db.py lines 94-118): INSERT INTO action_ledger,
returning the new row id. -/
def log_action (db : DB) (now : Int) (action_type : String)
    (deployment_id : Option String) (details : Option (List (String × PVal)))
    (status : String) (error : Option String) : DB × Nat :=
  ({ ledger := db.ledger ++
       [{ id := db.nextId, timestamp := now, action_type := action_type,
          deployment_id := deployment_id, details := detailsStored details,
          status := status, error := error }],
     cooldowns := db.cooldowns, nextId := db.nextId + 1 }, db.nextId)

/-- AutopilotDB.update_action_status (db.py lines 120-132): UPDATE action_ledger
SET status = ?, error = ? WHERE id = ?; the call sites that omit the error
argument pass None for it. -/
def update_action_status (db : DB) (action_id : Nat) (status : String)
    (error : Option String) : DB :=
  { db with ledger := db.ledger.map fun r =>
      if r.id = action_id then { r with status := status, error := error } else r }

/-- AutopilotDB.count_actions_since (db.py lines 166-184): COUNT of ledger rows
with timestamp >= since, restricted to the action type when one is given. -/
def count_actions_since (db : DB) (since : Int) (action_type : Option String) : Nat :=
  (db.ledger.filter fun r =>
    decide (since ≤ r.timestamp) &&
      match action_type with
      | some t => r.action_type == t
      | none => true).length

/-- AutopilotDB.set_cooldown (db.py lines 188-201): INSERT INTO cooldowns with
expires_at = now + cooldown_seconds. -/
def set_cooldown (db : DB) (now : Int) (action_type : String)
    (cooldown_seconds : Int) (deployment_id : Option String) : DB :=
  { db with cooldowns := db.cooldowns ++
      [{ action_type := action_type, deployment_id := deployment_id,
         expires_at := now + cooldown_seconds }] }

/-- Python truthiness of an Optional[str]: None and the empty string are falsy. -/
def strTruthy : Option String → Bool
  | none => false
  | some s => !(s == "")

/-- AutopilotDB.check_cooldown (db.py lines 203-226). The code branches on the
truthiness of deployment_id: with a truthy deployment id the query also matches
on the deployment_id column (so a NULL-scoped row never matches), otherwise it
matches on action_type alone. True means some matching row has
expires_at > now. -/
def check_cooldown (db : DB) (now : Int) (action_type : String)
    (deployment_id : Option String) : Bool :=
  if strTruthy deployment_id then
    db.cooldowns.any fun c =>
      (c.action_type == action_type) && (c.deployment_id == deployment_id) &&
        decide (now < c.expires_at)
  else
    db.cooldowns.any fun c =>
      (c.action_type == action_type) && decide (now < c.expires_at)

/-- PolicyGuardrails._check_rate_limits (policy.py lines 50-75): true when both
the trailing 1-hour and the trailing 24-hour counts of actions of this type
are strictly below their configured ceilings. -/
def check_rate_limits (s : Settings) (db : DB) (now : Int) (action_type : String) : Bool :=
  let count_hour := count_actions_since db (now - 3600) (some action_type)
  if s.max_actions_per_hour ≤ (count_hour : Int) then false
  else
    let count_day := count_actions_since db (now - 86400) (some action_type)
    if s.max_actions_per_day ≤ (count_day : Int) then false
    else true

/-- A Python order comparison `v < n` against an int: defined for int and bool
operands, a TypeError for any other operand type. -/
def pyLtInt (v : PVal) (n : Int) : Except String Bool :=
  match v with
  | PVal.vInt m => Except.ok (decide (m < n))
  | PVal.vBool b => Except.ok (decide ((if b then (1 : Int) else 0) < n))
  | _ => Except.error "TypeError"

/-- A Python order comparison `v > n` against an int, as `pyLtInt`. -/
def pyGtInt (v : PVal) (n : Int) : Except String Bool :=
  match v with
  | PVal.vInt m => Except.ok (decide (n < m))
  | PVal.vBool b => Except.ok (decide (n < (if b then (1 : Int) else 0)))
  | _ => Except.error "TypeError"

/-- PolicyGuardrails._validate_scale_action (policy.py lines 77-93). `details`
is None or a dict; `not details` is also true for an empty dict, and
`details.get("new_count")` yields None both for a missing key and for an
explicit None value. The comparisons `new_count < 0` and `new_count > 10`
raise TypeError when new_count is neither an int nor a bool, modelled by
`Except.error`. -/
def validate_scale_action (details : Option (List (String × PVal))) :
    Except String (Bool × Option String) :=
  match details with
  | none => Except.ok (false, some "Scale action requires details")
  | some [] => Except.ok (false, some "Scale action requires details")
  | some d =>
    let new_count := (dictGet d "new_count").getD PVal.vNone
    if pyIsNone new_count then
      Except.ok (false, some "Scale action requires new_count parameter")
    else do
      let neg ← pyLtInt new_count 0
      if neg then Except.ok (false, some "Replica count cannot be negative")
      else
        let high ← pyGtInt new_count 10
        if high then
          Except.ok (false, some ("Replica count too high: " ++ pvalToStr new_count ++ " (max: 10)"))
        else Except.ok (true, none)

/-- PolicyGuardrails._validate_redeploy_action (policy.py lines 95-106): denies
only a falsy deployment_id; an unknown deployment is allowed with a logged
warning, so the snapshot-store lookup does not affect the verdict. -/
def validate_redeploy_action (deployment_id : Option String) : Bool × Option String :=
  if strTruthy deployment_id = false then
    (false, some "Redeploy action requires deployment_id")
  else (true, none)

/-- PolicyGuardrails.validate_action (policy.py lines 18-48): rate limits, then
cooldowns, then the type-specific checks. `Except.error` marks an uncaught
Python exception escaping from the scale check. -/
def validate_action (s : Settings) (db : DB) (now : Int) (action_type : String)
    (deployment_id : Option String) (details : Option (List (String × PVal))) :
    Except String (Bool × Option String) :=
  if check_rate_limits s db now action_type = false then
    Except.ok (false, some ("Rate limit exceeded for " ++ action_type))
  else if check_cooldown db now action_type deployment_id then
    Except.ok (false, some ("Action " ++ action_type ++ " is in cooldown period"))
  else if action_type = "scale" then do
    let (is_valid, reason) ← validate_scale_action details
    if is_valid = false then Except.ok (false, reason)
    else Except.ok (true, none)
  else if action_type = "redeploy" then
    let (is_valid, reason) := validate_redeploy_action deployment_id
    if is_valid = false then Except.ok (false, reason)
    else Except.ok (true, none)
  else Except.ok (true, none)

/-- PolicyGuardrails.apply_cooldown (policy.py lines 108-118): looks up the
per-type duration (3600 s for unrecognized types) and inserts the cooldown
row. -/
def apply_cooldown (s : Settings) (db : DB) (now : Int) (action_type : String)
    (deployment_id : Option String) : DB :=
  let cooldown_seconds :=
    if action_type = "scale" then s.scale_cooldown_seconds
    else if action_type = "redeploy" then s.redeploy_cooldown_seconds
    else 3600
  set_cooldown db now action_type cooldown_seconds deployment_id

/-- The per-service accumulation of AutopilotAgent._get_replica_count
(loop.py lines 181-183): `service_config.get("replicas", 1)` added to the
running total. A non-dict service config or a non-numeric replicas value
would raise, modelled by `Except.error`. -/
def replicaFold : List (String × PVal) → Int → Except Unit Int
  | [], acc => Except.ok acc
  | (_, PVal.vDict cfg) :: rest, acc =>
    match (dictGet cfg "replicas").getD (PVal.vInt 1) with
    | PVal.vInt r => replicaFold rest (acc + r)
    | PVal.vBool b => replicaFold rest (acc + (if b then 1 else 0))
    | _ => Except.error ()
  | (_, _) :: _, _ => Except.error ()

/-- AutopilotAgent._get_replica_count (loop.py lines 176-185): sum of the
per-service replica counts of `deployment.get("services", \x7b\x7d)`. -/
def get_replica_count (deployment : List (String × PVal)) : Except Unit Int :=
  match (dictGet deployment "services").getD (PVal.vDict []) with
  | PVal.vDict svcs => replicaFold svcs 0
  | _ => Except.error ()

/-- AutopilotAgent._execute_action (loop.py lines 187-248), for an action whose
fields have been extracted as at lines 189-191. `console` is the truthiness of
console_client.get_deployment for a deployment id, which is all that
_execute_scale and _execute_redeploy consult in the MVP (both then return
True). The pending record is logged BEFORE policy validation; a validation
exception propagates out of the method, leaving that record pending. -/
def execute_action (s : Settings) (console : Option String → Bool) (db : DB)
    (now : Int) (action_type : String) (deployment_id : Option String)
    (details : Option (List (String × PVal))) : DB :=
  let (db1, action_id) := log_action db now action_type deployment_id details "pending" none
  match validate_action s db1 now action_type deployment_id details with
  | Except.error _ => db1
  | Except.ok (is_allowed, reason) =>
    if is_allowed = false then
      update_action_status db1 action_id "blocked" reason
    else
      let succErr : Bool × Option String :=
        if action_type = "scale" then (console deployment_id, none)
        else if action_type = "redeploy" then (console deployment_id, none)
        else (false, some ("Unknown action type: " ++ action_type))
      let final_status := if succErr.1 then "completed" else "failed"
      let db2 := update_action_status db1 action_id final_status succErr.2
      if succErr.1 then apply_cooldown s db2 now action_type deployment_id else db2

/-- Whether the character list p is an initial segment of the second list. -/
def leadsWith : List Char → List Char → Bool
  | [], _ => true
  | _ :: _, [] => false
  | p :: ps, c :: cs => (p == c) && leadsWith ps cs

/-- Whether the character list p occurs contiguously in the second list. -/
def occursIn (p : List Char) : List Char → Bool
  | [] => leadsWith p []
  | c :: cs => leadsWith p (c :: cs) || occursIn p cs

/-- Whether pat occurs as a contiguous substring of s. -/
def strOccurs (pat s : String) : Bool := occursIn pat.toList s.toList

/-- Claim-side acceptance condition for one plan element (the words of C6): a
mapping whose type is scale, redeploy or no_action, a scale element carrying
deployment_id and new_count, a redeploy element carrying deployment_id. -/
def elemOkSpec : PVal → Bool
  | PVal.vDict d =>
    match dictGet d "type" with
    | some tv =>
      if pyEqStr tv "scale" then hasKey d "deployment_id" && hasKey d "new_count"
      else if pyEqStr tv "redeploy" then hasKey d "deployment_id"
      else if pyEqStr tv "no_action" then true
      else false
    | none => false
  | _ => false

/-- Claim-side acceptance condition for a whole plan (the words of C6): a
mapping containing an actions list all of whose elements pass `elemOkSpec`. -/
def specPlanAccepts : PVal → Bool
  | PVal.vDict p =>
    match dictGet p "actions" with
    | some (PVal.vList acts) => acts.all elemOkSpec
    | _ => false
  | _ => false

/-- Claim-side sanitized form of one entry (the words of C7): type,
deployment_id and details, where a scale entry's details are new_count and
reason and a redeploy entry's details are reason, the reason defaulting to a
fixed string when absent. -/
def specSanitizeElem : PVal → SAction
  | PVal.vDict d =>
    { typ := (dictGet d "type").getD PVal.vNone,
      deployment_id := (dictGet d "deployment_id").getD PVal.vNone,
      details :=
        if pyEqStr ((dictGet d "type").getD PVal.vNone) "scale" then
          [("new_count", (dictGet d "new_count").getD PVal.vNone),
           ("reason", (dictGet d "reason").getD (PVal.vStr "LLM recommendation"))]
        else if pyEqStr ((dictGet d "type").getD PVal.vNone) "redeploy" then
          [("reason", (dictGet d "reason").getD (PVal.vStr "LLM recommendation"))]
        else [] }
  | _ => { typ := PVal.vNone, deployment_id := PVal.vNone, details := [] }

/-- Claim-side filter for sanitization (the words of C7): exactly the entries
whose type is no_action are removed. -/
def specKeeps : PVal → Bool
  | PVal.vDict d => !(pyEqStr ((dictGet d "type").getD PVal.vNone) "no_action")
  | _ => true

/-- Claim-side per-service replica contribution (the words of C9): the
service's replicas value, a service lacking an explicit value contributing 1. -/
def specServiceReplicas : String × PVal → Int
  | (_, PVal.vDict cfg) =>
    match dictGet cfg "replicas" with
    | some (PVal.vInt r) => r
    | _ => 1
  | _ => 1

/-! Concrete states and inputs used by the scenario theorems below. -/

/-- Settings with the hourly ceiling lowered to 1, the other fields at their
config.py defaults (the policy of the end-to-end rate-limit scenario). -/
def s1 : Settings := { max_actions_per_hour := 1 }

/-- The empty database state: an initially empty ledger and cooldown table. -/
def dbE : DB := { ledger := [], cooldowns := [], nextId := 0 }

/-- A console client that finds every deployment (the mock client's behaviour
for tracked deployments). -/
def consoleAll : Option String → Bool := fun _ => true

/-- Details of a scale action to 2 replicas. -/
def scDetails : List (String × PVal) :=
  [("new_count", PVal.vInt 2), ("reason", PVal.vStr "load")]

/-- The database after the first scale action of the rate-limit scenario. -/
def c1_db1 : DB := execute_action s1 consoleAll dbE 1000 "scale" (some "d1") (some scDetails)

/-- The database after the second scale action of the rate-limit scenario. -/
def c1_db2 : DB := execute_action s1 consoleAll c1_db1 1001 "scale" (some "d1") (some scDetails)

/-- An action plan whose scale action carries a non-integer new_count. -/
def c2_plan : PVal := PVal.vDict [("actions", PVal.vList [PVal.vDict
  [("type", PVal.vStr "scale"), ("deployment_id", PVal.vStr "d1"),
   ("new_count", PVal.vStr "five")]])]

/-- A database holding one unexpired global (NULL-scoped) cooldown row for
scale, expiring at time 100. -/
def dbGlobalCd : DB :=
  { ledger := [],
    cooldowns := [{ action_type := "scale", deployment_id := none, expires_at := 100 }],
    nextId := 0 }

/-- A database holding one completed scale action for d1 at time 0, with an
error message recorded. -/
def dbOneScale : DB :=
  { ledger := [{ id := 0, timestamp := 0, action_type := "scale",
                 deployment_id := some "d1", details := none,
                 status := "completed", error := some "boom" }],
    cooldowns := [], nextId := 1 }

/-- The plan of the sanitization example: a no_action entry, then a scale
entry, then a redeploy entry. -/
def c7_plan_entries : List (String × PVal) := [("actions", PVal.vList
  [PVal.vDict [("type", PVal.vStr "no_action")],
   PVal.vDict [("type", PVal.vStr "scale"), ("deployment_id", PVal.vStr "d1"),
               ("new_count", PVal.vInt 2)],
   PVal.vDict [("type", PVal.vStr "redeploy"), ("deployment_id", PVal.vStr "d2")]])]

/-- A plan whose single action carries an unhashable (list) type value. -/
def c6_unhashable_plan : PVal :=
  PVal.vDict [("actions", PVal.vList [PVal.vDict [("type", PVal.vList [])]])]

/-! Helper lemmas on substring occurrence. -/

theorem leadsWith_self (p : List Char) : ∀ s, leadsWith p (p ++ s) = true := by
  induction p with
  | nil => intro s; rfl
  | cons c cs ih => intro s; simp [leadsWith, ih]

theorem leadsWith_mono (p : List Char) : ∀ s t, leadsWith p s = true →
    leadsWith p (s ++ t) = true := by
  induction p with
  | nil => intro s t _; rfl
  | cons c cs ih =>
    intro s t h
    cases s with
    | nil => exact absurd h (by simp [leadsWith])
    | cons a as =>
      simp only [leadsWith, Bool.and_eq_true] at h
      simp [leadsWith, h.1, ih as t h.2]

theorem occursIn_nil_pat (s : List Char) : occursIn [] s = true := by
  cases s <;> simp [occursIn, leadsWith]

theorem occursIn_self (p : List Char) : occursIn p p = true := by
  cases p with
  | nil => exact occursIn_nil_pat []
  | cons c cs =>
    have := leadsWith_self (c :: cs) []
    simp only [List.append_nil] at this
    simp [occursIn, this]

theorem occursIn_mono_right (p : List Char) : ∀ s t, occursIn p s = true →
    occursIn p (s ++ t) = true := by
  intro s
  induction s with
  | nil =>
    intro t h
    cases p with
    | nil => exact occursIn_nil_pat t
    | cons c cs => exact absurd h (by simp [occursIn, leadsWith])
  | cons c cs ih =>
    intro t h
    simp only [occursIn, Bool.or_eq_true] at h
    rcases h with h | h
    · have : leadsWith p (c :: (cs ++ t)) = true := leadsWith_mono _ _ t h
      simp [occursIn, this]
    · simp [occursIn, ih t h]

theorem occursIn_mono_left (p : List Char) : ∀ s t, occursIn p s = true →
    occursIn p (t ++ s) = true := by
  intro s t h
  induction t with
  | nil => simpa using h
  | cons c cs ih => simp [occursIn, ih]

theorem strOccurs_self (pat : String) : strOccurs pat pat = true :=
  occursIn_self pat.toList

theorem strOccurs_append_right (pat s t : String) (h : strOccurs pat s = true) :
    strOccurs pat (s ++ t) = true := by
  unfold strOccurs at *
  have hl : (s ++ t).toList = s.toList ++ t.toList := String.data_append s t
  rw [hl]
  exact occursIn_mono_right _ _ _ h

theorem strOccurs_append_left (pat s t : String) (h : strOccurs pat s = true) :
    strOccurs pat (t ++ s) = true := by
  unfold strOccurs at *
  have hl : (t ++ s).toList = t.toList ++ s.toList := String.data_append t s
  rw [hl]
  exact occursIn_mono_left _ _ _ h

/-! Helper lemmas on the plan validator loop. -/

theorem bool_eq_false_of_ne_true {b : Bool} (h : ¬ b = true) : b = false := by
  cases b
  · rfl
  · exact absurd rfl h

theorem pyEqStr_eq (v : PVal) (lit : String) (h : pyEqStr v lit = true) :
    v = PVal.vStr lit := by
  cases v with
  | vStr s => simp [pyEqStr] at h; rw [h]
  | vInt n => simp [pyEqStr] at h
  | vBool b => simp [pyEqStr] at h
  | vNone => simp [pyEqStr] at h
  | vList l => simp [pyEqStr] at h
  | vDict dd => simp [pyEqStr] at h

theorem validateActs_cons_ok (a : PVal) (rest : List PVal) (i : Nat)
    (h : elemOkSpec a = true) :
    validateActs i (a :: rest) = validateActs (i + 1) rest := by
  cases a with
  | vDict d =>
    cases htv : dictGet d "type" with
    | none => simp [elemOkSpec, htv] at h
    | some tv =>
      simp only [elemOkSpec, htv] at h
      by_cases h1 : pyEqStr tv "scale" = true
      · obtain rfl := pyEqStr_eq tv "scale" h1
        have hm : typeValid (PVal.vStr "scale") = Except.ok true := rfl
        simp only [h1, if_true] at h
        rw [Bool.and_eq_true] at h
        simp [validateActs, htv, hm, Bind.bind, Except.bind, h1, h.1, h.2]
      · by_cases h2 : pyEqStr tv "redeploy" = true
        · obtain rfl := pyEqStr_eq tv "redeploy" h2
          have hm : typeValid (PVal.vStr "redeploy") = Except.ok true := rfl
          simp [h1, h2] at h
          simp [validateActs, htv, hm, Bind.bind, Except.bind, h1, h2, h]
        · by_cases h3 : pyEqStr tv "no_action" = true
          · obtain rfl := pyEqStr_eq tv "no_action" h3
            have hm : typeValid (PVal.vStr "no_action") = Except.ok true := rfl
            simp [validateActs, htv, hm, Bind.bind, Except.bind, h1, h2]
          · simp [h1, h2, h3] at h
  | vInt n => simp [elemOkSpec] at h
  | vStr s => simp [elemOkSpec] at h
  | vBool b => simp [elemOkSpec] at h
  | vNone => simp [elemOkSpec] at h
  | vList l => simp [elemOkSpec] at h

theorem validateActs_cons_bad (a : PVal) (rest : List PVal) (i : Nat)
    (h : elemOkSpec a = false) :
    validateActs i (a :: rest) ≠ Except.ok (true, none) := by
  cases a with
  | vDict d =>
    cases htv : dictGet d "type" with
    | none => simp [validateActs, htv]
    | some tv =>
      simp only [elemOkSpec, htv] at h
      cases tv with
      | vList l =>
        simp [validateActs, htv, typeValid, pyHashable, Bind.bind, Except.bind]
      | vDict dd =>
        simp [validateActs, htv, typeValid, pyHashable, Bind.bind, Except.bind]
      | vInt n =>
        simp [validateActs, htv, typeValid, pyHashable, pyEqStr, Bind.bind, Except.bind]
      | vBool b =>
        simp [validateActs, htv, typeValid, pyHashable, pyEqStr, Bind.bind, Except.bind]
      | vNone =>
        simp [validateActs, htv, typeValid, pyHashable, pyEqStr, Bind.bind, Except.bind]
      | vStr s =>
        by_cases h1 : pyEqStr (PVal.vStr s) "scale" = true
        · have hm : typeValid (PVal.vStr s) = Except.ok true := by
            simp [typeValid, pyHashable, h1]
          simp only [h1, if_true] at h
          cases hk1 : hasKey d "deployment_id" <;>
            cases hk2 : hasKey d "new_count" <;>
              simp_all [validateActs, htv, hm, Bind.bind, Except.bind, h1]
        · by_cases h2 : pyEqStr (PVal.vStr s) "redeploy" = true
          · have hm : typeValid (PVal.vStr s) = Except.ok true := by
              simp [typeValid, pyHashable, h2]
            simp [h1, h2] at h
            simp [validateActs, htv, hm, Bind.bind, Except.bind, h1, h2, h]
          · by_cases h3 : pyEqStr (PVal.vStr s) "no_action" = true
            · simp [h1, h2, h3] at h
            · have hm : typeValid (PVal.vStr s) = Except.ok false := by
                simp [typeValid, pyHashable, bool_eq_false_of_ne_true h1,
                      bool_eq_false_of_ne_true h2, bool_eq_false_of_ne_true h3]
              simp [validateActs, htv, hm, Bind.bind, Except.bind]
  | vInt n => simp [validateActs]
  | vStr s => simp [validateActs]
  | vBool b => simp [validateActs]
  | vNone => simp [validateActs]
  | vList l => simp [validateActs]

theorem validateActs_true_iff (acts : List PVal) : ∀ i,
    validateActs i acts = Except.ok (true, none) ↔ acts.all elemOkSpec = true := by
  induction acts with
  | nil => intro i; simp [validateActs]
  | cons a rest ih =>
    intro i
    by_cases h : elemOkSpec a = true
    · rw [validateActs_cons_ok a rest i h, List.all_cons, h]
      simpa using ih (i + 1)
    · have hf : elemOkSpec a = false := bool_eq_false_of_ne_true h
      have h1 := validateActs_cons_bad a rest i hf
      constructor
      · intro he; exact absurd he h1
      · intro he; rw [List.all_cons, hf] at he; simp at he

theorem validateActs_pre_ok (pre : List PVal) : ∀ (rest : List PVal) (i : Nat),
    (∀ a ∈ pre, elemOkSpec a = true) →
    validateActs i (pre ++ rest) = validateActs (i + pre.length) rest := by
  induction pre with
  | nil => intro rest i _; simp
  | cons a l ih =>
    intro rest i h
    rw [List.cons_append, validateActs_cons_ok a _ i (h a (by simp)),
        ih rest (i + 1) (fun b hb => h b (by simp [hb]))]
    have : i + 1 + l.length = i + (a :: l).length := by simp; omega
    rw [this]

theorem validateActs_bad_type (d : List (String × PVal)) (tv : PVal)
    (rest : List PVal) (i : Nat)
    (htv : dictGet d "type" = some tv) (hbad : typeValid tv = Except.ok false) :
    validateActs i (PVal.vDict d :: rest)
      = Except.ok (false, some ("Invalid action type: '" ++ pvalToStr tv ++
          "'. Must be one of \x7bscale, redeploy, no_action\x7d")) := by
  simp [validateActs, htv, hbad, Bind.bind, Except.bind]

theorem validateActs_type_raises (d : List (String × PVal)) (tv : PVal)
    (rest : List PVal) (i : Nat)
    (htv : dictGet d "type" = some tv) (hbad : pyHashable tv = false) :
    validateActs i (PVal.vDict d :: rest) = Except.error "TypeError" := by
  simp [validateActs, htv, typeValid, hbad, Bind.bind, Except.bind]

theorem validateActs_scale_missing (d : List (String × PVal))
    (rest : List PVal) (i : Nat)
    (htv : dictGet d "type" = some (PVal.vStr "scale"))
    (hdep : hasKey d "deployment_id" = true)
    (hnc : hasKey d "new_count" = false) :
    validateActs i (PVal.vDict d :: rest)
      = Except.ok (false,
          some ("Scale action " ++ toString i ++ " missing 'new_count'")) := by
  have h1 : pyEqStr (PVal.vStr "scale") "scale" = true := rfl
  have hm : typeValid (PVal.vStr "scale") = Except.ok true := rfl
  simp [validateActs, htv, hm, Bind.bind, Except.bind, h1, hdep, hnc]

theorem sanitizeActs_ok (acts : List PVal)
    (h : ∀ a ∈ acts, ∃ d, a = PVal.vDict d ∧ (dictGet d "type").isSome = true) :
    sanitizeActs acts = Except.ok ((acts.filter specKeeps).map specSanitizeElem) := by
  induction acts with
  | nil => rfl
  | cons a rest ih =>
    obtain ⟨d, rfl, hts⟩ := h a (by simp)
    have hrest := ih (fun b hb => h b (by simp [hb]))
    cases htv : dictGet d "type" with
    | none => rw [htv] at hts; simp at hts
    | some tv =>
      have hg : (dictGet d "type").getD PVal.vNone = tv := by rw [htv]; rfl
      by_cases hna : pyEqStr tv "no_action" = true
      · simp [sanitizeActs, hg, hna, specKeeps, hrest, List.filter_cons]
      · have hf : pyEqStr tv "no_action" = false := by
          revert hna; cases pyEqStr tv "no_action" <;> simp
        simp only [sanitizeActs, htv, Option.getD_some, hf, Bool.false_eq_true,
                   if_false, hrest, List.filter_cons, specKeeps, Bool.not_false,
                   if_true, List.map_cons, specSanitizeElem]
        rfl

/-! The claims. -/

/-- C1, counterexample: with max_actions_per_hour = 1 and an initially empty
ledger, already the FIRST scale action executed by the scheduler ends in
status blocked (not completed) and no cooldown is applied, because the
action's own pending ledger record is counted against the hourly window by
the rate-limit check that follows it. -/
theorem claim1_counterexample :
    (c1_db1.ledger.map fun r => (r.id, r.status)) = [(0, "blocked")]
    ∧ c1_db1.cooldowns = [] :=
  ⟨rfl, rfl⟩

/-- C1, amended: with max_actions_per_hour = 1 and an initially empty ledger,
two consecutive scale actions for the same deployment within one hour both end
in status blocked with the reason string "Rate limit exceeded for scale" (the
pending record logged before validation already reaches the hourly ceiling),
and no cooldown row is ever written. -/
theorem claim1_both_blocked :
    (c1_db2.ledger.map fun r => (r.id, r.status, r.error))
      = [(0, "blocked", some "Rate limit exceeded for scale"),
         (1, "blocked", some "Rate limit exceeded for scale")]
    ∧ c1_db2.cooldowns = [] :=
  ⟨rfl, rfl⟩

/-- C2, code bug: the plan whose scale action carries the non-integer
new_count "five" is accepted by plan validation (which checks only key
presence), sanitization hands that value to the guardrail, and
validate_action then raises TypeError from the comparison new_count < 0
instead of returning a verdict. -/
theorem claim2_guardrail_raises :
    validate_action_plan c2_plan = Except.ok (true, none)
    ∧ sanitize_action_plan [("actions", PVal.vList [PVal.vDict
        [("type", PVal.vStr "scale"), ("deployment_id", PVal.vStr "d1"),
         ("new_count", PVal.vStr "five")]])]
      = Except.ok [{ typ := PVal.vStr "scale", deployment_id := PVal.vStr "d1",
                     details := [("new_count", PVal.vStr "five"),
                                 ("reason", PVal.vStr "LLM recommendation")] }]
    ∧ validate_action {} dbE 0 "scale" (some "d1")
        (some [("new_count", PVal.vStr "five"),
               ("reason", PVal.vStr "LLM recommendation")])
      = Except.error "TypeError" :=
  ⟨rfl, rfl, rfl⟩

/-- C3, counterexample: with an unexpired NULL-scoped (global) cooldown row
for scale on file, check_cooldown for scale on the concrete deployment d1
returns false, and validate_action allows the scale action — the claim says a
global cooldown row makes isInCooldown true for every deployment id and
forces a denial. -/
theorem claim3_counterexample :
    check_cooldown dbGlobalCd 0 "scale" (some "d1") = false
    ∧ validate_action {} dbGlobalCd 0 "scale" (some "d1")
        (some [("new_count", PVal.vInt 2)]) = Except.ok (true, none) :=
  ⟨rfl, rfl⟩

/-- C3, amended: a cooldown row is matched only by checks of the same scope.
A check without a deployment id (the falsy branch) is in cooldown exactly when
some unexpired row of the action type exists, whatever its scope; a check with
a non-empty deployment id is in cooldown exactly when some unexpired row
carries that action type and exactly that deployment id — so a NULL-scoped row
never affects a deployment-scoped check. -/
theorem claim3_cooldown_scope (db : DB) (now : Int) (t d : String) (hd : ¬ d = "") :
    (check_cooldown db now t none = true ↔
      ∃ c ∈ db.cooldowns, c.action_type = t ∧ now < c.expires_at)
    ∧ (check_cooldown db now t (some d) = true ↔
      ∃ c ∈ db.cooldowns, c.action_type = t ∧ c.deployment_id = some d ∧
        now < c.expires_at) := by
  constructor
  · simp [check_cooldown, strTruthy, List.any_eq_true, and_assoc]
  · simp [check_cooldown, strTruthy, hd, List.any_eq_true, and_assoc]

/-- C3 witness: the global-cooldown database is in cooldown for a check made
without a deployment id. -/
theorem claim3_cooldown_scope_witness :
    check_cooldown dbGlobalCd 0 "scale" none = true := by
  have h := claim3_cooldown_scope dbGlobalCd 0 "scale" "d1" (by decide)
  exact h.1.mpr ⟨{ action_type := "scale", deployment_id := none, expires_at := 100 },
    by simp [dbGlobalCd], rfl, by decide⟩

/-- C4, counterexample: with the hourly ceiling 1 reached (count 1, ceiling
1), validate_action denies with exactly "Rate limit exceeded for scale" — a
reason that names neither the hourly nor the daily window and contains neither
the current count nor the ceiling value 1. -/
theorem claim4_counterexample :
    validate_action s1 dbOneScale 0 "scale" (some "d1")
        (some [("new_count", PVal.vInt 2)])
      = Except.ok (false, some "Rate limit exceeded for scale")
    ∧ strOccurs "hour" "Rate limit exceeded for scale" = false
    ∧ strOccurs "day" "Rate limit exceeded for scale" = false
    ∧ strOccurs "1" "Rate limit exceeded for scale" = false :=
  ⟨rfl, by decide, by decide, by decide⟩

/-- C4, amended: whenever the rate-limit check fails (hourly or daily),
validate_action denies with the fixed reason "Rate limit exceeded for " ++
action type, which names only the action type; the window and the
current/ceiling counts appear only in the log, not in the returned reason. -/
theorem claim4_rate_limit_reason (s : Settings) (db : DB) (now : Int)
    (action_type : String) (deployment_id : Option String)
    (details : Option (List (String × PVal)))
    (h : check_rate_limits s db now action_type = false) :
    validate_action s db now action_type deployment_id details
      = Except.ok (false, some ("Rate limit exceeded for " ++ action_type)) := by
  simp [validate_action, h]

/-- C4 witness: the amended statement at the concrete one-action database with
ceiling 1. -/
theorem claim4_rate_limit_reason_witness :
    validate_action s1 dbOneScale 5 "scale" (some "d1") none
      = Except.ok (false, some ("Rate limit exceeded for " ++ "scale")) :=
  claim4_rate_limit_reason s1 dbOneScale 5 "scale" (some "d1") none rfl

/-- C5: apply_cooldown writes one cooldown row with expires_at = now + D,
where D is scale_cooldown_seconds for scale, redeploy_cooldown_seconds for
redeploy and 3600 for any other type; at every instant strictly before
expires_at a cooldown check — and hence validate_action — for the same
(type, deployment id) denies, and at every instant at or after expires_at the
new row no longer matters: the cooldown check equals the one on the previous
state, so the action is no longer denied on cooldown grounds. -/
theorem claim5_apply_cooldown (s : Settings) (db : DB) (now τ : Int)
    (action_type : String) (deployment_id : Option String) (D : Int)
    (hD : D = if action_type = "scale" then s.scale_cooldown_seconds
          else if action_type = "redeploy" then s.redeploy_cooldown_seconds
          else 3600) :
    ((apply_cooldown s db now action_type deployment_id).cooldowns
      = db.cooldowns ++ [{ action_type := action_type,
                           deployment_id := deployment_id,
                           expires_at := now + D }])
    ∧ (τ < now + D →
        check_cooldown (apply_cooldown s db now action_type deployment_id)
          τ action_type deployment_id = true)
    ∧ (τ < now + D → ∀ details, ∃ r,
        validate_action s (apply_cooldown s db now action_type deployment_id)
          τ action_type deployment_id details = Except.ok (false, some r))
    ∧ (now + D ≤ τ →
        check_cooldown (apply_cooldown s db now action_type deployment_id)
          τ action_type deployment_id
        = check_cooldown db τ action_type deployment_id) := by
  subst hD
  have hrow : (apply_cooldown s db now action_type deployment_id).cooldowns
      = db.cooldowns ++
        [{ action_type := action_type,
           deployment_id := deployment_id,
           expires_at := now + (if action_type = "scale" then s.scale_cooldown_seconds
             else if action_type = "redeploy" then s.redeploy_cooldown_seconds
             else 3600) }] := by
    simp [apply_cooldown, set_cooldown]
  have hcheck : ∀ τ', τ' < now + (if action_type = "scale" then s.scale_cooldown_seconds
      else if action_type = "redeploy" then s.redeploy_cooldown_seconds else 3600) →
      check_cooldown (apply_cooldown s db now action_type deployment_id)
        τ' action_type deployment_id = true := by
    intro τ' hτ
    unfold check_cooldown
    rw [hrow]
    by_cases ht : strTruthy deployment_id = true
    · simp [ht, List.any_append, hτ]
    · have ht' : strTruthy deployment_id = false := by
        revert ht; cases strTruthy deployment_id <;> simp
      simp [ht', List.any_append, hτ]
  refine ⟨hrow, hcheck τ, ?_, ?_⟩
  · intro hτ details
    by_cases hrl : check_rate_limits s
        (apply_cooldown s db now action_type deployment_id) τ action_type = false
    · exact ⟨"Rate limit exceeded for " ++ action_type, by simp [validate_action, hrl]⟩
    · have hrl' : check_rate_limits s
          (apply_cooldown s db now action_type deployment_id) τ action_type = true := by
        revert hrl; cases check_rate_limits s
          (apply_cooldown s db now action_type deployment_id) τ action_type <;> simp
      exact ⟨"Action " ++ action_type ++ " is in cooldown period",
        by simp [validate_action, hrl', hcheck τ hτ]⟩
  · intro hτ
    have hdead : decide (τ < now + (if action_type = "scale" then s.scale_cooldown_seconds
        else if action_type = "redeploy" then s.redeploy_cooldown_seconds
        else 3600)) = false := by
      simp [Int.not_lt.mpr hτ]
    unfold check_cooldown
    rw [hrow]
    by_cases ht : strTruthy deployment_id = true
    · simp [ht, List.any_append, hdead]
    · have ht' : strTruthy deployment_id = false := by
        revert ht; cases strTruthy deployment_id <;> simp
      simp [ht', List.any_append, hdead]

/-- C5 witness: after apply_cooldown for scale on the empty database with the
default settings, the row expires at 3600; time 10 is still in cooldown and a
scale validation at time 10 is denied, while time 3600 is no longer in
cooldown. -/
theorem claim5_apply_cooldown_witness :
    ((apply_cooldown {} dbE 0 "scale" (some "d1")).cooldowns
      = [{ action_type := "scale", deployment_id := some "d1", expires_at := 3600 }])
    ∧ check_cooldown (apply_cooldown {} dbE 0 "scale" (some "d1")) 10 "scale" (some "d1") = true
    ∧ check_cooldown (apply_cooldown {} dbE 0 "scale" (some "d1")) 3600 "scale" (some "d1")
        = check_cooldown dbE 3600 "scale" (some "d1") := by
  have h := claim5_apply_cooldown {} dbE 0 10 "scale" (some "d1") 3600 rfl
  have h2 := claim5_apply_cooldown {} dbE 0 3600 "scale" (some "d1") 3600 rfl
  exact ⟨h.1, h.2.1 (by decide), h2.2.2.2 (by decide)⟩

/-- C6, counterexample: a plan whose single action's type value is a list
lies outside the closed set, yet validation does not reject it with an error
naming the offending value — the set-membership test hashes the value and
raises TypeError, which escapes the validator. -/
theorem claim6_counterexample :
    validate_action_plan c6_unhashable_plan = Except.error "TypeError" := rfl

/-- C6, amended: plan validation is deterministic (it is a pure function, so
re-running it on the same input yields the same verdict); it accepts a plan
exactly when the plan is a mapping carrying an actions list whose every
element is a mapping with a type in the closed set (scale elements carrying
deployment_id and new_count, redeploy elements carrying deployment_id); an
element whose type value is an unhashable list or dict makes validation raise
TypeError from the set-membership test instead of returning a rejection; any
other element whose type lies outside the set (the first failing element) is
rejected with the offending value named in the error; a scale element missing
new_count is rejected with an error naming that field; and a single bad
element prevents acceptance of the whole plan. -/
theorem claim6_plan_validation (plan : PVal) :
    (validate_action_plan plan = validate_action_plan plan)
    ∧ (validate_action_plan plan = Except.ok (true, none) ↔
        specPlanAccepts plan = true)
    ∧ (∀ p acts pre d tv rest,
        plan = PVal.vDict p →
        dictGet p "actions" = some (PVal.vList acts) →
        acts = pre ++ PVal.vDict d :: rest →
        (∀ a ∈ pre, elemOkSpec a = true) →
        dictGet d "type" = some tv →
        pyHashable tv = false →
        validate_action_plan plan = Except.error "TypeError")
    ∧ (∀ p acts pre d tv rest,
        plan = PVal.vDict p →
        dictGet p "actions" = some (PVal.vList acts) →
        acts = pre ++ PVal.vDict d :: rest →
        (∀ a ∈ pre, elemOkSpec a = true) →
        dictGet d "type" = some tv →
        typeValid tv = Except.ok false →
        ∃ msg, validate_action_plan plan = Except.ok (false, some msg)
          ∧ strOccurs (pvalToStr tv) msg = true)
    ∧ (∀ p acts pre d rest,
        plan = PVal.vDict p →
        dictGet p "actions" = some (PVal.vList acts) →
        acts = pre ++ PVal.vDict d :: rest →
        (∀ a ∈ pre, elemOkSpec a = true) →
        dictGet d "type" = some (PVal.vStr "scale") →
        hasKey d "deployment_id" = true →
        hasKey d "new_count" = false →
        ∃ msg, validate_action_plan plan = Except.ok (false, some msg)
          ∧ strOccurs "new_count" msg = true)
    ∧ (∀ p acts a,
        plan = PVal.vDict p →
        dictGet p "actions" = some (PVal.vList acts) →
        a ∈ acts → elemOkSpec a = false →
        validate_action_plan plan ≠ Except.ok (true, none)) := by
  refine ⟨rfl, ?_, ?_, ?_, ?_, ?_⟩
  · cases plan with
    | vDict p =>
      cases hA : dictGet p "actions" with
      | none => simp [validate_action_plan, hA, specPlanAccepts]
      | some v =>
        cases v with
        | vList acts =>
          simp [validate_action_plan, hA, specPlanAccepts, validateActs_true_iff acts 0]
        | vInt n => simp [validate_action_plan, hA, specPlanAccepts]
        | vStr s => simp [validate_action_plan, hA, specPlanAccepts]
        | vBool b => simp [validate_action_plan, hA, specPlanAccepts]
        | vNone => simp [validate_action_plan, hA, specPlanAccepts]
        | vDict q => simp [validate_action_plan, hA, specPlanAccepts]
    | vInt n => simp [validate_action_plan, specPlanAccepts]
    | vStr s => simp [validate_action_plan, specPlanAccepts]
    | vBool b => simp [validate_action_plan, specPlanAccepts]
    | vNone => simp [validate_action_plan, specPlanAccepts]
    | vList l => simp [validate_action_plan, specPlanAccepts]
  · rintro p acts pre d tv rest rfl hA rfl hpre htv hbad
    have hv : validate_action_plan (PVal.vDict p)
        = validateActs 0 (pre ++ PVal.vDict d :: rest) := by
      simp [validate_action_plan, hA]
    rw [hv, validateActs_pre_ok pre _ 0 hpre,
        validateActs_type_raises d tv rest _ htv hbad]
  · rintro p acts pre d tv rest rfl hA rfl hpre htv hbad
    have hv : validate_action_plan (PVal.vDict p)
        = validateActs 0 (pre ++ PVal.vDict d :: rest) := by
      simp [validate_action_plan, hA]
    rw [hv, validateActs_pre_ok pre _ 0 hpre,
        validateActs_bad_type d tv rest _ htv hbad]
    exact ⟨_, rfl,
      strOccurs_append_right _ _ _ (strOccurs_append_left _ _ _ (strOccurs_self _))⟩
  · rintro p acts pre d rest rfl hA rfl hpre htv hdep hnc
    have hv : validate_action_plan (PVal.vDict p)
        = validateActs 0 (pre ++ PVal.vDict d :: rest) := by
      simp [validate_action_plan, hA]
    rw [hv, validateActs_pre_ok pre _ 0 hpre,
        validateActs_scale_missing d rest _ htv hdep hnc]
    exact ⟨_, rfl, strOccurs_append_left _ _ _ (by decide)⟩
  · rintro p acts a rfl hA ha hbad he
    have hv : validate_action_plan (PVal.vDict p) = validateActs 0 acts := by
      simp [validate_action_plan, hA]
    rw [hv] at he
    have hall := (validateActs_true_iff acts 0).mp he
    rw [List.all_eq_true] at hall
    have hx := hall a ha
    rw [hbad] at hx
    exact absurd hx (by simp)

/-- C7: for every plan whose actions are mappings each carrying a type field
(in particular every plan accepted by validation), sanitize removes exactly
the entries whose type is no_action, emits the remaining entries in their
original relative order, and maps each to the triple of its type, its
deployment_id and per-type details (scale: new_count and reason; redeploy:
reason; reason defaulting to the fixed string when absent). -/
theorem claim7_sanitize (p : List (String × PVal)) (acts : List PVal)
    (hA : dictGet p "actions" = some (PVal.vList acts))
    (hT : ∀ a ∈ acts, ∃ d, a = PVal.vDict d ∧ (dictGet d "type").isSome = true) :
    sanitize_action_plan p
      = Except.ok ((acts.filter specKeeps).map specSanitizeElem) := by
  simp [sanitize_action_plan, hA, sanitizeActs_ok acts hT]

/-- C7 witness: the plan of the claim — a no_action entry, a scale entry and a
redeploy entry — sanitizes to exactly two entries, the scale entry before the
redeploy entry, with the claimed detail shapes. -/
theorem claim7_sanitize_witness :
    sanitize_action_plan c7_plan_entries
      = Except.ok
          [{ typ := PVal.vStr "scale", deployment_id := PVal.vStr "d1",
             details := [("new_count", PVal.vInt 2),
                         ("reason", PVal.vStr "LLM recommendation")] },
           { typ := PVal.vStr "redeploy", deployment_id := PVal.vStr "d2",
             details := [("reason", PVal.vStr "LLM recommendation")] }] := by
  refine Eq.trans (claim7_sanitize c7_plan_entries
      [PVal.vDict [("type", PVal.vStr "no_action")],
       PVal.vDict [("type", PVal.vStr "scale"), ("deployment_id", PVal.vStr "d1"),
                   ("new_count", PVal.vInt 2)],
       PVal.vDict [("type", PVal.vStr "redeploy"), ("deployment_id", PVal.vStr "d2")]]
      rfl ?_) rfl
  intro a ha
  simp only [List.mem_cons, List.not_mem_nil, or_false] at ha
  rcases ha with rfl | rfl | rfl
  · exact ⟨_, rfl, rfl⟩
  · exact ⟨_, rfl, rfl⟩
  · exact ⟨_, rfl, rfl⟩

/-! Helper lemmas for the scale-bounds claim. -/

theorem validate_action_scale_reduce (s : Settings) (db : DB) (now : Int)
    (dep : Option String) (details : Option (List (String × PVal)))
    (hrl : check_rate_limits s db now "scale" = true)
    (hcd : check_cooldown db now "scale" dep = false) :
    validate_action s db now "scale" dep details
      = (validate_scale_action details).bind fun pr =>
          if pr.1 = false then Except.ok (false, pr.2) else Except.ok (true, none) := by
  cases hv : validate_scale_action details with
  | error e => simp [validate_action, hrl, hcd, hv, Bind.bind, Except.bind]
  | ok pr =>
    cases pr with
    | mk b r => simp [validate_action, hrl, hcd, hv, Bind.bind, Except.bind]

theorem vsa_details_falsy (details : Option (List (String × PVal)))
    (h : details = none ∨ details = some []) :
    validate_scale_action details
      = Except.ok (false, some "Scale action requires details") := by
  rcases h with rfl | rfl <;> rfl

theorem vsa_missing (d : List (String × PVal)) (hne : ¬ d = [])
    (h : dictGet d "new_count" = none ∨ dictGet d "new_count" = some PVal.vNone) :
    validate_scale_action (some d)
      = Except.ok (false, some "Scale action requires new_count parameter") := by
  cases d with
  | nil => exact absurd rfl hne
  | cons kv tl => rcases h with h | h <;> simp [validate_scale_action, h, pyIsNone]

theorem vsa_int (d : List (String × PVal)) (n : Int)
    (h : dictGet d "new_count" = some (PVal.vInt n)) :
    validate_scale_action (some d)
      = Except.ok (if n < 0 then (false, some "Replica count cannot be negative")
          else if 10 < n then
            (false, some ("Replica count too high: " ++ toString n ++ " (max: 10)"))
          else (true, none)) := by
  cases d with
  | nil => simp [dictGet] at h
  | cons kv tl =>
    by_cases hneg : n < 0
    · simp [validate_scale_action, h, pyIsNone, pyLtInt, pyGtInt, hneg, pvalToStr,
            Bind.bind, Except.bind]
    · by_cases hhigh : 10 < n
      · simp [validate_scale_action, h, pyIsNone, pyLtInt, pyGtInt, hneg, hhigh,
              pvalToStr, Bind.bind, Except.bind]
      · simp [validate_scale_action, h, pyIsNone, pyLtInt, pyGtInt, hneg, hhigh,
              pvalToStr, Bind.bind, Except.bind]

/-- C8: for a scale action whose rate limits and cooldowns are not binding
(and whose new_count value, when present, is an integer or None),
validate_action allows it exactly when details carry a new_count integer that
is non-negative and at most the max-replicas ceiling 10; each violation mode —
details absent or empty, new_count missing, negative, or above the ceiling —
is denied with its own distinct reason string. -/
theorem claim8_scale_bounds (s : Settings) (db : DB) (now : Int)
    (dep : Option String) (details : Option (List (String × PVal)))
    (hrl : check_rate_limits s db now "scale" = true)
    (hcd : check_cooldown db now "scale" dep = false)
    (hty : ∀ d v, details = some d → dictGet d "new_count" = some v →
      (∃ n : Int, v = PVal.vInt n) ∨ v = PVal.vNone) :
    (validate_action s db now "scale" dep details = Except.ok (true, none) ↔
      ∃ d n, details = some d ∧ dictGet d "new_count" = some (PVal.vInt n) ∧
        0 ≤ n ∧ n ≤ 10)
    ∧ ((details = none ∨ details = some []) →
        validate_action s db now "scale" dep details
          = Except.ok (false, some "Scale action requires details"))
    ∧ (∀ d, details = some d → ¬ d = [] →
        (dictGet d "new_count" = none ∨ dictGet d "new_count" = some PVal.vNone) →
        validate_action s db now "scale" dep details
          = Except.ok (false, some "Scale action requires new_count parameter"))
    ∧ (∀ d n, details = some d → dictGet d "new_count" = some (PVal.vInt n) →
        n < 0 →
        validate_action s db now "scale" dep details
          = Except.ok (false, some "Replica count cannot be negative"))
    ∧ (∀ d n, details = some d → dictGet d "new_count" = some (PVal.vInt n) →
        10 < n →
        validate_action s db now "scale" dep details
          = Except.ok (false,
              some ("Replica count too high: " ++ toString n ++ " (max: 10)"))) := by
  have hred := validate_action_scale_reduce s db now dep details hrl hcd
  refine ⟨⟨?_, ?_⟩, ?_, ?_, ?_, ?_⟩
  · intro h
    rw [hred] at h
    cases details with
    | none => rw [vsa_details_falsy none (Or.inl rfl)] at h; simp [Bind.bind, Except.bind] at h
    | some d =>
      cases d with
      | nil =>
        rw [vsa_details_falsy (some []) (Or.inr rfl)] at h
        simp [Bind.bind, Except.bind] at h
      | cons kv tl =>
        cases hnc : dictGet (kv :: tl) "new_count" with
        | none =>
          rw [vsa_missing (kv :: tl) (by simp) (Or.inl hnc)] at h
          simp [Bind.bind, Except.bind] at h
        | some v =>
          rcases hty (kv :: tl) v rfl hnc with ⟨n, rfl⟩ | rfl
          · by_cases hneg : n < 0
            · rw [vsa_int (kv :: tl) n hnc] at h
              simp [hneg, Bind.bind, Except.bind] at h
            · by_cases hhigh : 10 < n
              · rw [vsa_int (kv :: tl) n hnc] at h
                simp [hneg, hhigh, Bind.bind, Except.bind] at h
              · exact ⟨kv :: tl, n, rfl, hnc, Int.not_lt.mp hneg, Int.not_lt.mp hhigh⟩
          · rw [vsa_missing (kv :: tl) (by simp) (Or.inr hnc)] at h
            simp [Bind.bind, Except.bind] at h
  · rintro ⟨d, n, rfl, hnc, h0, h10⟩
    rw [hred, vsa_int d n hnc]
    simp [Int.not_lt.mpr h0, Int.not_lt.mpr h10, Bind.bind, Except.bind]
  · intro h
    rw [hred, vsa_details_falsy details h]
    simp [Bind.bind, Except.bind]
  · rintro d rfl hne h
    rw [hred, vsa_missing d hne h]
    simp [Bind.bind, Except.bind]
  · rintro d n rfl hnc hneg
    rw [hred, vsa_int d n hnc]
    simp [hneg, Bind.bind, Except.bind]
  · rintro d n rfl hnc hhigh
    have hneg : ¬ n < 0 := by omega
    rw [hred, vsa_int d n hnc]
    simp [hneg, hhigh, Bind.bind, Except.bind]

/-- C8 witness: with the default settings, the empty database and new_count 3,
the scale action is allowed. -/
theorem claim8_scale_bounds_witness :
    validate_action {} dbE 0 "scale" (some "d1")
        (some [("new_count", PVal.vInt 3)]) = Except.ok (true, none) := by
  refine (claim8_scale_bounds {} dbE 0 (some "d1")
      (some [("new_count", PVal.vInt 3)]) rfl rfl ?_).1.mpr
    ⟨[("new_count", PVal.vInt 3)], 3, rfl, rfl, by decide, by decide⟩
  intro d v hd hv
  cases hd
  simp [dictGet] at hv
  exact Or.inl ⟨3, hv.symm⟩

/-! Helper lemma for the replica-count claim. -/

theorem replicaFold_ok (svcs : List (String × PVal))
    (hw : ∀ q ∈ svcs, ∃ cfg, q.2 = PVal.vDict cfg ∧
      (dictGet cfg "replicas" = none ∨
        ∃ r : Int, dictGet cfg "replicas" = some (PVal.vInt r))) :
    ∀ acc, replicaFold svcs acc
      = Except.ok (acc + (svcs.map specServiceReplicas).sum) := by
  induction svcs with
  | nil => intro acc; simp [replicaFold]
  | cons q tl ih =>
    intro acc
    obtain ⟨cfg, hq, hr⟩ := hw q (by simp)
    obtain ⟨nm, cv⟩ := q
    simp only [] at hq
    subst hq
    have ht := ih (fun b hb => hw b (by simp [hb]))
    rcases hr with hr | ⟨r, hr⟩
    · simp only [replicaFold, hr, Option.getD_none, ht, List.map_cons,
                 specServiceReplicas, List.sum_cons]
      exact congrArg Except.ok (by ring)
    · simp only [replicaFold, hr, Option.getD_some, ht, List.map_cons,
                 specServiceReplicas, List.sum_cons]
      exact congrArg Except.ok (by ring)

/-- C9: for a deployment whose services map holds per-service configuration
dicts (each with an integer replicas value or none at all), the derived
replica count is the sum over the declared services of their replicas values,
a service without an explicit value contributing 1. -/
theorem claim9_replica_count (deployment : List (String × PVal))
    (svcs : List (String × PVal))
    (hs : dictGet deployment "services" = some (PVal.vDict svcs))
    (hw : ∀ q ∈ svcs, ∃ cfg, q.2 = PVal.vDict cfg ∧
      (dictGet cfg "replicas" = none ∨
        ∃ r : Int, dictGet cfg "replicas" = some (PVal.vInt r))) :
    get_replica_count deployment
      = Except.ok ((svcs.map specServiceReplicas).sum) := by
  have h := replicaFold_ok svcs hw 0
  simp [get_replica_count, hs, h]

/-- C9 witness: the deployment with services web (replicas 3) and worker
(no explicit replicas) yields total replica count 4. -/
theorem claim9_replica_count_witness :
    get_replica_count [("services", PVal.vDict
      [("web", PVal.vDict [("replicas", PVal.vInt 3)]),
       ("worker", PVal.vDict [])])] = Except.ok 4 := by
  refine Eq.trans (claim9_replica_count _
      [("web", PVal.vDict [("replicas", PVal.vInt 3)]), ("worker", PVal.vDict [])]
      rfl ?_) rfl
  intro q hq
  simp only [List.mem_cons, List.not_mem_nil, or_false] at hq
  rcases hq with rfl | rfl
  · exact ⟨_, rfl, Or.inr ⟨3, rfl⟩⟩
  · exact ⟨_, rfl, Or.inl rfl⟩

/-- C10: update_action_status overwrites the status and error columns of the
record with the given id unconditionally — also when that record is already
terminal — setting error to exactly the argument (None erases a stored
message), leaves every other column of that record (timestamp, action type,
deployment id, details) unchanged, leaves every other record unchanged, and
touches neither the cooldown table nor the id counter. -/
theorem claim10_update_status (db : DB) (action_id : Nat) (status : String)
    (error : Option String) :
    ((update_action_status db action_id status error).cooldowns = db.cooldowns)
    ∧ ((update_action_status db action_id status error).nextId = db.nextId)
    ∧ List.Forall₂ (fun r r' =>
        r'.id = r.id ∧ r'.timestamp = r.timestamp ∧ r'.action_type = r.action_type
        ∧ r'.deployment_id = r.deployment_id ∧ r'.details = r.details
        ∧ (r.id = action_id → r'.status = status ∧ r'.error = error)
        ∧ (¬ r.id = action_id → r'.status = r.status ∧ r'.error = r.error))
      db.ledger (update_action_status db action_id status error).ledger := by
  refine ⟨rfl, rfl, ?_⟩
  show List.Forall₂ _ db.ledger (db.ledger.map fun r =>
    if r.id = action_id then { r with status := status, error := error } else r)
  induction db.ledger with
  | nil => exact List.Forall₂.nil
  | cons r l ih =>
    refine List.Forall₂.cons ?_ ih
    by_cases h : r.id = action_id <;> simp [h]

end Autopilot
